import Mathlib

/-!
# Verification of the boiler-simulator engine (`src/boiler.py`)

Shallow embedding of the simulation engine in `src/boiler.py`: the thermal
model `boiler_step`, the PID loop `simulate_boiler_pid`, and the
configuration wrapper `run_simulation`.  Python floats are modelled as exact
rationals `ℚ`.  Python's `ZeroDivisionError` is modelled by an
`Option`-valued variant of the pipeline (`simulate_boiler_pid_checked`)
that returns `none` exactly where the source would raise; the plain
functions use `ℚ`'s total division.
-/

namespace BoilerSim

/-- `BoilerParams` (`src/boiler.py` lines 5-11). -/
structure BoilerParams where
  C : ℚ
  k_loss : ℚ
  k_draw : ℚ
  T_out : ℚ
  T_cold : ℚ
  deriving DecidableEq

/-- `boiler_step` (`src/boiler.py` lines 14-43): one explicit-Euler step of
the tank energy balance. -/
def boiler_step (T P_in q_out : ℚ) (params : BoilerParams) (dt : ℚ) : ℚ :=
  let P_loss := params.k_loss * (T - params.T_out)
  let P_draw := params.k_draw * q_out * (T - params.T_cold)
  let dTdt := (P_in - P_loss - P_draw) / params.C
  T + dt * dTdt

/-- The arguments of `simulate_boiler_pid` (`src/boiler.py` lines 46-56).
`q_out_profile` is modelled as a function `ℚ → ℚ`; the source also accepts
`None` (the constant-zero function) and a numeric constant (a constant
function), both special cases of a function value. -/
structure SimConfig where
  T_set : ℚ
  Kp : ℚ
  Ti : ℚ
  Td : ℚ
  params : BoilerParams
  dt : ℚ
  total_time : ℚ
  P_max : ℚ
  q_out_profile : ℚ → ℚ

/-- `Ki = Kp / Ti if Ti > 0.0 else 0.0` (line 82). -/
def Ki (cfg : SimConfig) : ℚ := if cfg.Ti > 0 then cfg.Kp / cfg.Ti else 0

/-- `Kd = Kp * Td if Td > 0.0 else 0.0` (line 83). -/
def Kd (cfg : SimConfig) : ℚ := if cfg.Td > 0 then cfg.Kp * cfg.Td else 0

/-- `P_loss_estimated = params.k_loss * (T_set - params.T_out)` (line 88). -/
def P_loss_estimated (cfg : SimConfig) : ℚ :=
  cfg.params.k_loss * (cfg.T_set - cfg.params.T_out)

/-- `integ_max = P_loss_estimated / Ki if Ki > 0.0 else float('inf')`
(line 90).  The source stores `float('inf')` in the `Ki ≤ 0` branch; that
value is only ever read inside the `if Ki > 0.0:` block (lines 124-138), so
the placeholder `0` used here in that dead branch is never observable. -/
def integ_max (cfg : SimConfig) : ℚ :=
  if Ki cfg > 0 then P_loss_estimated cfg / Ki cfg else 0

/-- Loop state threaded through `simulate_boiler_pid`: the tank temperature
`T` (line 68), the error integral `integ` (line 78) and the previous error
`e_prev` (line 79). -/
structure CtrlState where
  T : ℚ
  integ : ℚ
  e_prev : ℚ
  deriving DecidableEq

/-- The values computed by one iteration of the `for k in range(n)` loop of
`simulate_boiler_pid` (lines 92-153). -/
structure Tick where
  t : ℚ
  q_out : ℚ
  e : ℚ
  P_term : ℚ
  I_term : ℚ
  D_term : ℚ
  u : ℚ
  P_in : ℚ
  integ_next : ℚ
  T_next : ℚ
  deriving DecidableEq

/-- One iteration of the loop body of `simulate_boiler_pid`
(lines 92-144), translated statement by statement from the source. -/
def simStep (cfg : SimConfig) (s : CtrlState) (k : ℕ) : Tick :=
  let t := ((k : ℚ) + 1) * cfg.dt
  let q_out := cfg.q_out_profile t
  let e := cfg.T_set - s.T
  let P_term := cfg.Kp * e
  let I_term := if Ki cfg > 0 then Ki cfg * s.integ else 0
  let D_term := if Kd cfg > 0 then Kd cfg * (e - s.e_prev) / cfg.dt else 0
  let u := P_term + I_term + D_term
  let P_in := max 0 (min u cfg.P_max)
  let integ1 :=
    if Ki cfg > 0 then
      if ¬ ((P_in ≥ cfg.P_max ∧ e > 0) ∨ (P_in ≤ 0 ∧ e < 0)) then
        s.integ + e * cfg.dt
      else s.integ
    else s.integ
  let integ2 :=
    if Ki cfg > 0 ∧ e < 5 then
      let scale := max 0 (e / 5)
      let current_limit := integ_max cfg * (1 + scale)
      max (-current_limit) (min integ1 current_limit)
    else integ1
  let T_next := boiler_step s.T P_in q_out cfg.params cfg.dt
  { t := t, q_out := q_out, e := e, P_term := P_term, I_term := I_term,
    D_term := D_term, u := u, P_in := P_in, integ_next := integ2,
    T_next := T_next }

/-- The state updates of one iteration: `integ` (lines 129/138),
`e_prev = e` (line 141) and `T = boiler_step(...)` (line 144). -/
def nextState (tk : Tick) : CtrlState :=
  { T := tk.T_next, integ := tk.integ_next, e_prev := tk.e }

/-- State on loop entry: `T = params.T_cold` (line 68), `integ = 0.0`
(line 78), `e_prev = T_set - T` (line 79). -/
def initState (cfg : SimConfig) : CtrlState :=
  { T := cfg.params.T_cold, integ := 0,
    e_prev := cfg.T_set - cfg.params.T_cold }

/-- Loop state before tick `k` (`stateAt cfg 0` is the state on entry). -/
def stateAt (cfg : SimConfig) : ℕ → CtrlState
  | 0 => initState cfg
  | k + 1 => nextState (simStep cfg (stateAt cfg k) k)

/-- The values computed by tick `k` of the run. -/
def tickAt (cfg : SimConfig) (k : ℕ) : Tick := simStep cfg (stateAt cfg k) k

/-- Python `int()` applied to a rational: truncation toward zero. -/
def truncInt (q : ℚ) : ℤ := if 0 ≤ q then ⌊q⌋ else ⌈q⌉

/-- `n = int(total_time / dt)` (line 65); `range(n)` performs `max n 0`
iterations, i.e. `Int.toNat n`. -/
def numTicks (cfg : SimConfig) : ℕ := (truncInt (cfg.total_time / cfg.dt)).toNat

/-- The columns of the `DataFrame` returned by `simulate_boiler_pid`
(lines 155-163). -/
structure SimResult where
  time : List ℚ
  temperature : List ℚ
  power : List ℚ
  q_out : List ℚ
  P_term : List ℚ
  I_term : List ℚ
  D_term : List ℚ
  deriving DecidableEq

/-- `simulate_boiler_pid` (lines 46-163): each history list starts with its
initial element (lines 70-76) and receives one entry per loop iteration
(lines 147-153). -/
def simulate_boiler_pid (cfg : SimConfig) : SimResult :=
  let n := numTicks cfg
  { time := 0 :: (List.range n).map fun k => (tickAt cfg k).t
  , temperature :=
      cfg.params.T_cold :: (List.range n).map fun k => (tickAt cfg k).T_next
  , power := 0 :: (List.range n).map fun k => (tickAt cfg k).P_in
  , q_out := 0 :: (List.range n).map fun k => (tickAt cfg k).q_out
  , P_term := 0 :: (List.range n).map fun k => (tickAt cfg k).P_term
  , I_term := 0 :: (List.range n).map fun k => (tickAt cfg k).I_term
  , D_term := 0 :: (List.range n).map fun k => (tickAt cfg k).D_term }

/-- Checked division: `none` models Python raising `ZeroDivisionError`. -/
def div? (a b : ℚ) : Option ℚ := if b = 0 then none else some (a / b)

/-- The partial operations of one loop iteration: the derivative division
by `dt` (line 112, executed only when `Kd > 0`), and `boiler_step`'s
division by `params.C` (line 39, executed every tick).  All other per-tick
arithmetic is total (the only other division, `e / 5.0` on line 136, has a
nonzero constant denominator). -/
def stepChecked (cfg : SimConfig) (s : CtrlState) (k : ℕ) : Option CtrlState :=
  if (Kd cfg > 0 ∧ cfg.dt = 0) ∨ cfg.params.C = 0 then none
  else some (nextState (simStep cfg s k))

/-- Runs the first `n` checked loop iterations in order. -/
def runChecked (cfg : SimConfig) : ℕ → Option CtrlState
  | 0 => some (initState cfg)
  | k + 1 => (runChecked cfg k).bind fun s => stepChecked cfg s k

/-- `simulate_boiler_pid` with Python's `ZeroDivisionError` made explicit:
`none` exactly when the source raises.  The divisions, in source order:
`total_time / dt` (line 65, unguarded), `Kp / Ti` (line 82, guarded by
`Ti > 0`), `P_loss_estimated / Ki` (line 90, guarded by `Ki > 0`), then the
per-tick divisions checked by `stepChecked`. -/
def simulate_boiler_pid_checked (cfg : SimConfig) : Option SimResult :=
  (div? cfg.total_time cfg.dt).bind fun _ =>
  (if cfg.Ti > 0 then div? cfg.Kp cfg.Ti else pure 0).bind fun _ =>
  (if Ki cfg > 0 then div? (P_loss_estimated cfg) (Ki cfg) else pure 0).bind
    fun _ =>
  (runChecked cfg (numTicks cfg)).bind fun _ =>
  some (simulate_boiler_pid cfg)

/-- `params_default` (lines 168-174). -/
def params_default : BoilerParams :=
  { C := 334880, k_loss := 5, k_draw := 4186, T_out := 22, T_cold := 10 }

/-- `DT = 1.0` (line 176). -/
def DT : ℚ := 1

/-- `TOTAL_TIME = 18000` (line 177). -/
def TOTAL_TIME : ℚ := 18000

/-- `P_MAX = 2000.0` (line 178). -/
def P_MAX : ℚ := 2000

/-- `make_q_out_profile` (lines 188-193): the boxcar draw profile. -/
def make_q_out_profile (flow_lps start_s end_s : ℚ) : ℚ → ℚ :=
  fun t => if start_s ≤ t ∧ t ≤ end_s then flow_lps else 0

/-- `run_simulation` (lines 196-241).  The source computes
`k_loss_dynamic = 5.0 * (volume_l / 80.0) ** (2.0 / 3.0)`; the real-valued
power `x ** (2/3)` is irrational in general, so it is abstracted here as an
explicit function argument `pow23`.  Every other statement is translated
exactly; the fixed `dt = DT` and `total_time = TOTAL_TIME` are passed just
as in the source, and the signature exposes no step-size or horizon
parameter. -/
def run_simulation (pow23 : ℚ → ℚ)
    (T_set Kp Ti Td P_max volume_l flow_l_per_min shower_start_s
      shower_end_s : ℚ) : SimResult :=
  let C_dynamic := volume_l * 4186
  let k_loss_dynamic := 5 * pow23 (volume_l / 80)
  let params_dynamic : BoilerParams :=
    { C := C_dynamic, k_loss := k_loss_dynamic,
      k_draw := params_default.k_draw, T_out := params_default.T_out,
      T_cold := params_default.T_cold }
  let flow_lps := flow_l_per_min / 60
  let q_profile := make_q_out_profile flow_lps shower_start_s shower_end_s
  simulate_boiler_pid
    { T_set := T_set, Kp := Kp, Ti := Ti, Td := Td, params := params_dynamic,
      dt := DT, total_time := TOTAL_TIME, P_max := P_max,
      q_out_profile := q_profile }

/-- Modelled from the spec: the "ambient/draw-weighted equilibrium"
temperature toward which the uncontrolled tank relaxes at constant draw `q`
(the fixed point of `fun T => boiler_step T 0 q p dt`).  This quantity is
not computed by the source; it is needed only to state the relaxation
property. -/
def T_eq (p : BoilerParams) (q : ℚ) : ℚ :=
  (p.k_loss * p.T_out + p.k_draw * q * p.T_cold) / (p.k_loss + p.k_draw * q)

/-- The constant-zero draw profile (the source's `q_out_profile=None`). -/
def zeroProfile : ℚ → ℚ := fun _ => 0

/-- The per-tick PID equations exactly as the spec states them, for the
tick computed from an arbitrary reachable state `s`:
error, P term, I term from the pre-update integral, D term, clamping,
`previous_error` update, and the `Ti = 0` / `Kp = 0` degeneracies. -/
def pidTickFormulas (cfg : SimConfig) (s : CtrlState) (k : ℕ) : Prop :=
  let tk := simStep cfg s k
  tk.e = cfg.T_set - s.T ∧
  tk.P_term = cfg.Kp * tk.e ∧
  tk.I_term = (if cfg.Ti > 0 then cfg.Kp / cfg.Ti else 0) * s.integ ∧
  tk.D_term = (if cfg.Td > 0 then cfg.Kp * cfg.Td else 0) * (tk.e - s.e_prev)
      / cfg.dt ∧
  tk.P_in = max 0 (min (tk.P_term + tk.I_term + tk.D_term) cfg.P_max) ∧
  (nextState tk).e_prev = tk.e ∧
  (cfg.Ti = 0 → tk.I_term = 0 ∧ tk.integ_next = s.integ) ∧
  (cfg.Kp = 0 → tk.I_term = 0 ∧ tk.D_term = 0)

/-- The anti-windup policy as the spec states it, for one tick from state
`s`: accumulation is skipped exactly on directional saturation, and when
`e < 5` the stored integral is the clamp of the accumulated value into
`[-L, L]` with `L = (k_loss·(T_set − T_out)/Ki)·(1 + max 0 (e/5))`, its
magnitude hence bounded by `|L|`; no bound is enforced when `e ≥ 5`. -/
def antiWindupSpec (cfg : SimConfig) (s : CtrlState) (k : ℕ) : Prop :=
  let tk := simStep cfg s k
  let acc := if (tk.P_in ≥ cfg.P_max ∧ tk.e > 0) ∨ (tk.P_in ≤ 0 ∧ tk.e < 0)
    then s.integ else s.integ + tk.e * cfg.dt
  let L := cfg.params.k_loss * (cfg.T_set - cfg.params.T_out) / Ki cfg
      * (1 + max 0 (tk.e / 5))
  (¬ tk.e < 5 → tk.integ_next = acc) ∧
  (tk.e < 5 → tk.integ_next = max (-L) (min acc L)) ∧
  (tk.e < 5 → |tk.integ_next| ≤ |L|)

/-- Every emitted power sample lies in `[0, P_max]`. -/
def powerInRange (cfg : SimConfig) : Prop :=
  ∀ p ∈ (simulate_boiler_pid cfg).power, 0 ≤ p ∧ p ≤ cfg.P_max

/-- With all three gains zero: the power column is identically zero, the
temperature trajectory follows the unforced thermal model, and each
unforced Euler step moves the temperature monotonically toward the
ambient/draw-weighted equilibrium (without crossing it) whenever the
step-size stability condition `0 ≤ dt·(k_loss + k_draw·q)/C ≤ 1` holds. -/
def zeroGainsRelax (cfg : SimConfig) : Prop :=
  (∀ p ∈ (simulate_boiler_pid cfg).power, p = 0) ∧
  (∀ k, (stateAt cfg (k + 1)).T
      = boiler_step (stateAt cfg k).T 0 (tickAt cfg k).q_out cfg.params cfg.dt) ∧
  (∀ T q, 0 < cfg.params.k_loss + cfg.params.k_draw * q →
    0 ≤ cfg.dt * (cfg.params.k_loss + cfg.params.k_draw * q) / cfg.params.C →
    cfg.dt * (cfg.params.k_loss + cfg.params.k_draw * q) / cfg.params.C ≤ 1 →
    (T_eq cfg.params q ≤ T →
        T_eq cfg.params q ≤ boiler_step T 0 q cfg.params cfg.dt ∧
        boiler_step T 0 q cfg.params cfg.dt ≤ T) ∧
    (T ≤ T_eq cfg.params q →
        T ≤ boiler_step T 0 q cfg.params cfg.dt ∧
        boiler_step T 0 q cfg.params cfg.dt ≤ T_eq cfg.params q))

/-- An invalid configuration (`total_time = -1 ≤ 0`): used to show the
engine performs no configuration validation. -/
def cfgNoValidate : SimConfig :=
  { T_set := 55, Kp := 1, Ti := 0, Td := 0,
    params := { C := 1, k_loss := 0, k_draw := 0, T_out := 22, T_cold := 10 },
    dt := 1, total_time := -1, P_max := 2000, q_out_profile := zeroProfile }

/-- `Kp = 0` with `Ti > 0` and `Td > 0`: the dependent gain form makes
`Ki = Kd = 0`, so the I and D terms never act. -/
def cfgKpZero : SimConfig :=
  { T_set := 20, Kp := 0, Ti := 2, Td := 3,
    params := { C := 1, k_loss := 1, k_draw := 0, T_out := 0, T_cold := 10 },
    dt := 1, total_time := 3, P_max := 100, q_out_profile := zeroProfile }

/-- `Ti > 0` but `Kp = 0`: the anti-windup block is skipped although the
output is not saturated. -/
def cfgTiNoKp : SimConfig :=
  { T_set := 55, Kp := 0, Ti := 100, Td := 0,
    params := { C := 1, k_loss := 0, k_draw := 0, T_out := 22, T_cold := 10 },
    dt := 1, total_time := 2, P_max := 2000, q_out_profile := zeroProfile }

/-- A valid configuration whose step does not divide the horizon:
`dt = 2`, `total_time = 3`. -/
def cfgHalfStep : SimConfig :=
  { T_set := 55, Kp := 0, Ti := 0, Td := 0,
    params := { C := 1, k_loss := 0, k_draw := 0, T_out := 22, T_cold := 10 },
    dt := 2, total_time := 3, P_max := 10, q_out_profile := zeroProfile }

/-- A valid zero-gain configuration that is Euler-unstable:
`dt·k_loss/C = 3 > 2`, so the unforced trajectory oscillates around the
equilibrium with growing amplitude. -/
def cfgStiff : SimConfig :=
  { T_set := 55, Kp := 0, Ti := 0, Td := 0,
    params := { C := 1, k_loss := 3, k_draw := 0, T_out := 22, T_cold := 10 },
    dt := 1, total_time := 2, P_max := 100, q_out_profile := zeroProfile }

/-- A configuration with `dt = 0`: `n = int(total_time / dt)` divides by
zero before the first sample. -/
def cfgDtZero : SimConfig :=
  { T_set := 55, Kp := 1, Ti := 1, Td := 1,
    params := { C := 1, k_loss := 1, k_draw := 0, T_out := 22, T_cold := 10 },
    dt := 0, total_time := 10, P_max := 100, q_out_profile := zeroProfile }

/-- A plain PI configuration with `Kp > 0`, `Ti > 0` (witness data). -/
def cfgPid : SimConfig :=
  { T_set := 55, Kp := 2, Ti := 4, Td := 0,
    params := { C := 1, k_loss := 1, k_draw := 0, T_out := 22, T_cold := 10 },
    dt := 1, total_time := 2, P_max := 100, q_out_profile := zeroProfile }

/-! ## Helper lemmas: projections of one loop iteration -/

lemma simStep_t (cfg : SimConfig) (s : CtrlState) (k : ℕ) :
    (simStep cfg s k).t = ((k : ℚ) + 1) * cfg.dt := rfl

lemma simStep_e (cfg : SimConfig) (s : CtrlState) (k : ℕ) :
    (simStep cfg s k).e = cfg.T_set - s.T := rfl

lemma simStep_P_term (cfg : SimConfig) (s : CtrlState) (k : ℕ) :
    (simStep cfg s k).P_term = cfg.Kp * (cfg.T_set - s.T) := rfl

lemma simStep_I_term (cfg : SimConfig) (s : CtrlState) (k : ℕ) :
    (simStep cfg s k).I_term = if Ki cfg > 0 then Ki cfg * s.integ else 0 := rfl

lemma simStep_D_term (cfg : SimConfig) (s : CtrlState) (k : ℕ) :
    (simStep cfg s k).D_term
      = if Kd cfg > 0 then
          Kd cfg * ((simStep cfg s k).e - s.e_prev) / cfg.dt
        else 0 := rfl

lemma simStep_u (cfg : SimConfig) (s : CtrlState) (k : ℕ) :
    (simStep cfg s k).u
      = (simStep cfg s k).P_term + (simStep cfg s k).I_term
        + (simStep cfg s k).D_term := rfl

lemma simStep_P_in (cfg : SimConfig) (s : CtrlState) (k : ℕ) :
    (simStep cfg s k).P_in = max 0 (min ((simStep cfg s k).u) cfg.P_max) := rfl

lemma simStep_T_next (cfg : SimConfig) (s : CtrlState) (k : ℕ) :
    (simStep cfg s k).T_next
      = boiler_step s.T ((simStep cfg s k).P_in) ((simStep cfg s k).q_out)
          cfg.params cfg.dt := rfl

lemma simStep_integ_next (cfg : SimConfig) (s : CtrlState) (k : ℕ) :
    (simStep cfg s k).integ_next
      = (if Ki cfg > 0 ∧ (simStep cfg s k).e < 5 then
          max (-(integ_max cfg * (1 + max 0 ((simStep cfg s k).e / 5))))
            (min (if Ki cfg > 0 then
                    if ¬ (((simStep cfg s k).P_in ≥ cfg.P_max
                            ∧ (simStep cfg s k).e > 0)
                          ∨ ((simStep cfg s k).P_in ≤ 0
                            ∧ (simStep cfg s k).e < 0)) then
                      s.integ + (simStep cfg s k).e * cfg.dt
                    else s.integ
                  else s.integ)
              (integ_max cfg * (1 + max 0 ((simStep cfg s k).e / 5))))
        else
          if Ki cfg > 0 then
            if ¬ (((simStep cfg s k).P_in ≥ cfg.P_max ∧ (simStep cfg s k).e > 0)
                  ∨ ((simStep cfg s k).P_in ≤ 0 ∧ (simStep cfg s k).e < 0)) then
              s.integ + (simStep cfg s k).e * cfg.dt
            else s.integ
          else s.integ) := rfl

lemma nextState_e_prev (tk : Tick) : (nextState tk).e_prev = tk.e := rfl

lemma Ki_nonneg (cfg : SimConfig) (hKp : 0 ≤ cfg.Kp) : 0 ≤ Ki cfg := by
  rw [Ki]
  split_ifs with h
  · exact div_nonneg hKp h.le
  · exact le_refl 0

lemma Kd_nonneg (cfg : SimConfig) (hKp : 0 ≤ cfg.Kp) : 0 ≤ Kd cfg := by
  rw [Kd]
  split_ifs with h
  · exact mul_nonneg hKp h.le
  · exact le_refl 0

lemma Ki_of_Kp_zero (cfg : SimConfig) (hKp : cfg.Kp = 0) : Ki cfg = 0 := by
  simp [Ki, hKp]

lemma Kd_of_Kp_zero (cfg : SimConfig) (hKp : cfg.Kp = 0) : Kd cfg = 0 := by
  simp [Kd, hKp]

lemma zero_gains_P_in (cfg : SimConfig) (s : CtrlState) (k : ℕ)
    (hKp : cfg.Kp = 0) : (simStep cfg s k).P_in = 0 := by
  have hu : (simStep cfg s k).u = 0 := by
    rw [simStep_u, simStep_P_term, simStep_I_term, simStep_D_term,
      Ki_of_Kp_zero cfg hKp, Kd_of_Kp_zero cfg hKp, hKp]
    simp
  rw [simStep_P_in, hu]
  exact max_eq_left (min_le_left 0 cfg.P_max)

lemma abs_clamp_le (x c : ℚ) : |max (-c) (min x c)| ≤ |c| := by
  rw [abs_le]
  constructor
  · calc -|c| ≤ -c := neg_le_neg (le_abs_self c)
    _ ≤ max (-c) (min x c) := le_max_left _ _
  · refine max_le ?_ (le_trans (min_le_right x c) (le_abs_self c))
    calc -c ≤ |(-c)| := le_abs_self (-c)
    _ = |c| := abs_neg c

/-! ## Helper lemmas: the column lists -/

lemma simulate_time_length (cfg : SimConfig) :
    (simulate_boiler_pid cfg).time.length = numTicks cfg + 1 := by
  simp [simulate_boiler_pid]

lemma simulate_temperature_length (cfg : SimConfig) :
    (simulate_boiler_pid cfg).temperature.length = numTicks cfg + 1 := by
  simp [simulate_boiler_pid]

lemma simulate_power_length (cfg : SimConfig) :
    (simulate_boiler_pid cfg).power.length = numTicks cfg + 1 := by
  simp [simulate_boiler_pid]

lemma simulate_q_out_length (cfg : SimConfig) :
    (simulate_boiler_pid cfg).q_out.length = numTicks cfg + 1 := by
  simp [simulate_boiler_pid]

lemma simulate_P_term_length (cfg : SimConfig) :
    (simulate_boiler_pid cfg).P_term.length = numTicks cfg + 1 := by
  simp [simulate_boiler_pid]

lemma simulate_I_term_length (cfg : SimConfig) :
    (simulate_boiler_pid cfg).I_term.length = numTicks cfg + 1 := by
  simp [simulate_boiler_pid]

lemma simulate_D_term_length (cfg : SimConfig) :
    (simulate_boiler_pid cfg).D_term.length = numTicks cfg + 1 := by
  simp [simulate_boiler_pid]

lemma numTicks_default (cfg : SimConfig) (h1 : cfg.total_time = 18000)
    (h2 : cfg.dt = 1) : numTicks cfg = 18000 := by
  rw [numTicks, h1, h2]
  norm_num [truncInt]
  decide

/-! ## Helper lemmas: the checked pipeline -/

lemma ti_div_eq (cfg : SimConfig) :
    (if cfg.Ti > 0 then div? cfg.Kp cfg.Ti else pure 0)
      = some (if cfg.Ti > 0 then cfg.Kp / cfg.Ti else 0) := by
  split_ifs with h
  · rw [div?, if_neg (ne_of_gt h)]
  · rfl

lemma ki_div_eq (cfg : SimConfig) :
    (if Ki cfg > 0 then div? (P_loss_estimated cfg) (Ki cfg) else pure 0)
      = some (if Ki cfg > 0 then P_loss_estimated cfg / Ki cfg else 0) := by
  split_ifs with h
  · rw [div?, if_neg (ne_of_gt h)]
  · rfl

lemma runChecked_eq (cfg : SimConfig) (hdt : cfg.dt ≠ 0)
    (hC : cfg.params.C ≠ 0) (n : ℕ) :
    runChecked cfg n = some (stateAt cfg n) := by
  induction n with
  | zero => rfl
  | succ n ih =>
    rw [runChecked, ih]
    have hcond : ¬ ((Kd cfg > 0 ∧ cfg.dt = 0) ∨ cfg.params.C = 0) := by
      push_neg
      exact ⟨fun _ => hdt, hC⟩
    show stepChecked cfg (stateAt cfg n) n = some (stateAt cfg (n + 1))
    rw [stepChecked, if_neg hcond]
    rfl

lemma checked_complete (cfg : SimConfig) (hdt : cfg.dt ≠ 0)
    (hC : cfg.params.C ≠ 0) :
    simulate_boiler_pid_checked cfg = some (simulate_boiler_pid cfg) := by
  unfold simulate_boiler_pid_checked
  rw [show div? cfg.total_time cfg.dt = some (cfg.total_time / cfg.dt) from
      by rw [div?, if_neg hdt],
    ti_div_eq, ki_div_eq, runChecked_eq cfg hdt hC]
  rfl

lemma runChecked_isSome_iff (cfg : SimConfig) (hdt : cfg.dt ≠ 0) (n : ℕ) :
    (runChecked cfg n).isSome ↔ (n = 0 ∨ cfg.params.C ≠ 0) := by
  by_cases hC : cfg.params.C = 0
  · simp only [hC, ne_eq, not_true_eq_false, or_false]
    cases n with
    | zero => simp [runChecked]
    | succ n =>
      have hstep : ∀ s, stepChecked cfg s n = none := fun s => by
        rw [stepChecked, if_pos (Or.inr hC)]
      rw [runChecked]
      cases ho : runChecked cfg n with
      | none => simp
      | some s => simp [hstep s]
  · rw [runChecked_eq cfg hdt hC n]
    simp [hC]

/-! ## Claim theorems -/

/-- C5: `boiler_step` returns exactly
`T + dt·((P_in − k_loss·(T − T_out) − k_draw·q_out·(T − T_cold))/C)`, and it
applies no clamping: the concrete instance drives the output strictly below
`T_cold`, an unphysical but permitted value. -/
theorem boiler_step_exact_formula :
    (∀ (T P_in q_out : ℚ) (p : BoilerParams) (dt : ℚ),
        boiler_step T P_in q_out p dt
          = T + dt * ((P_in - p.k_loss * (T - p.T_out)
              - p.k_draw * q_out * (T - p.T_cold)) / p.C)) ∧
    boiler_step 10 0 0
        { C := 1, k_loss := 1, k_draw := 0, T_out := 0, T_cold := 10 } 1
      < ({ C := 1, k_loss := 1, k_draw := 0, T_out := 0, T_cold := 10 }
          : BoilerParams).T_cold := by
  constructor
  · intro T P q p dt
    rfl
  · norm_num [boiler_step]

/-- C9: every run starts cold: the first sample is
`(time, temperature, power, q_out, P, I, D) = (0, T_cold, 0, 0, 0, 0, 0)`,
the loop state starts at `T = T_cold`, `integral = 0`,
`previous_error = T_set − T_cold` (the first-step error, not zero), and
consequently the first tick's derivative term is `0` (no spike). -/
theorem cold_start_initialization (cfg : SimConfig) :
    (simulate_boiler_pid cfg).time.head? = some 0 ∧
    (simulate_boiler_pid cfg).temperature.head? = some cfg.params.T_cold ∧
    (simulate_boiler_pid cfg).power.head? = some 0 ∧
    (simulate_boiler_pid cfg).q_out.head? = some 0 ∧
    (simulate_boiler_pid cfg).P_term.head? = some 0 ∧
    (simulate_boiler_pid cfg).I_term.head? = some 0 ∧
    (simulate_boiler_pid cfg).D_term.head? = some 0 ∧
    (initState cfg).T = cfg.params.T_cold ∧
    (initState cfg).integ = 0 ∧
    (initState cfg).e_prev = cfg.T_set - cfg.params.T_cold ∧
    (tickAt cfg 0).D_term = 0 := by
  refine ⟨rfl, rfl, rfl, rfl, rfl, rfl, rfl, rfl, rfl, rfl, ?_⟩
  rw [tickAt, simStep_D_term]
  have he : (simStep cfg (stateAt cfg 0) 0).e - (stateAt cfg 0).e_prev = 0 := by
    show cfg.T_set - cfg.params.T_cold - (cfg.T_set - cfg.params.T_cold) = 0
    ring
  rw [he]
  simp

/-- C4: for every valid configuration (`dt > 0`, `total_time > 0`,
`P_max ≥ 0`), every entry of the emitted power column, the initial row
included, lies in `[0, P_max]`. -/
theorem power_within_limits (cfg : SimConfig) (hdt : 0 < cfg.dt)
    (htt : 0 < cfg.total_time) (hP : 0 ≤ cfg.P_max) : powerInRange cfg := by
  unfold powerInRange
  intro p hp
  simp only [simulate_boiler_pid, List.mem_cons, List.mem_map,
    List.mem_range] at hp
  rcases hp with rfl | ⟨k, -, rfl⟩
  · exact ⟨le_refl 0, hP⟩
  · rw [tickAt, simStep_P_in]
    exact ⟨le_max_left _ _, max_le hP (min_le_right _ _)⟩

/-- C4 witness: the power-range property discharged at the concrete valid
configuration `cfgHalfStep`. -/
theorem power_within_limits_witness :
    (0 < cfgHalfStep.dt ∧ 0 < cfgHalfStep.total_time ∧ 0 ≤ cfgHalfStep.P_max)
      ∧ powerInRange cfgHalfStep :=
  ⟨⟨by norm_num [cfgHalfStep], by norm_num [cfgHalfStep],
      by norm_num [cfgHalfStep]⟩,
    power_within_limits cfgHalfStep (by norm_num [cfgHalfStep])
      (by norm_num [cfgHalfStep]) (by norm_num [cfgHalfStep])⟩

/-- C6 (amended): for every valid configuration the time column is exactly
`0, dt, 2·dt, …, n·dt` with `n = numTicks = ⌊total_time/dt⌋`; its last
entry is `n·dt`, which equals `total_time` only when `dt` divides
`total_time` exactly. -/
theorem time_column_arithmetic (cfg : SimConfig) (hdt : 0 < cfg.dt)
    (htt : 0 < cfg.total_time) :
    (simulate_boiler_pid cfg).time
        = (List.range (numTicks cfg + 1)).map
            (fun k : ℕ => (k : ℚ) * cfg.dt) ∧
    (simulate_boiler_pid cfg).time.getLast?
        = some ((numTicks cfg : ℚ) * cfg.dt) ∧
    (numTicks cfg : ℤ) = ⌊cfg.total_time / cfg.dt⌋ := by
  have h1 : (simulate_boiler_pid cfg).time
      = (List.range (numTicks cfg + 1)).map
          (fun k : ℕ => (k : ℚ) * cfg.dt) := by
    show (0 : ℚ) :: (List.range (numTicks cfg)).map (fun k => (tickAt cfg k).t)
        = _
    rw [List.range_succ_eq_map, List.map_cons, List.map_map]
    congr 1
    · norm_num
    · refine List.map_congr_left ?_
      intro k hk
      show (tickAt cfg k).t = ((Nat.succ k : ℕ) : ℚ) * cfg.dt
      rw [tickAt, simStep_t]
      push_cast
      ring
  refine ⟨h1, ?_, ?_⟩
  · rw [h1, List.range_succ, List.map_append]
    simp
  · have hq : 0 ≤ cfg.total_time / cfg.dt := (div_pos htt hdt).le
    rw [numTicks, truncInt, if_pos hq,
      Int.toNat_of_nonneg (Int.floor_nonneg.mpr hq)]

/-- C6 witness: the time-column property discharged at the concrete valid
configuration `cfgHalfStep`. -/
theorem time_column_arithmetic_witness :
    (0 < cfgHalfStep.dt ∧ 0 < cfgHalfStep.total_time) ∧
    ((simulate_boiler_pid cfgHalfStep).time
        = (List.range (numTicks cfgHalfStep + 1)).map
            (fun k : ℕ => (k : ℚ) * cfgHalfStep.dt) ∧
      (simulate_boiler_pid cfgHalfStep).time.getLast?
        = some ((numTicks cfgHalfStep : ℚ) * cfgHalfStep.dt) ∧
      (numTicks cfgHalfStep : ℤ)
        = ⌊cfgHalfStep.total_time / cfgHalfStep.dt⌋) :=
  ⟨⟨by norm_num [cfgHalfStep], by norm_num [cfgHalfStep]⟩,
    time_column_arithmetic cfgHalfStep (by norm_num [cfgHalfStep])
      (by norm_num [cfgHalfStep])⟩

/-- C6 counterexample: the valid configuration `dt = 2`, `total_time = 3`
produces the time column `[0, 2]`, whose last entry `2` differs from
`total_time = 3` — the last time is `⌊total_time/dt⌋·dt`, not
`total_time`. -/
theorem last_time_not_total_time :
    0 < cfgHalfStep.dt ∧ 0 < cfgHalfStep.total_time ∧
    (simulate_boiler_pid cfgHalfStep).time = [0, 2] ∧
    (simulate_boiler_pid cfgHalfStep).time.getLast? = some 2 ∧
    cfgHalfStep.total_time = 3 ∧ (2 : ℚ) ≠ 3 := by
  have hn : numTicks cfgHalfStep = 1 := by
    norm_num [numTicks, truncInt, cfgHalfStep]
  have ht : (simulate_boiler_pid cfgHalfStep).time = [0, 2] := by
    simp only [simulate_boiler_pid, hn,
      show List.range 1 = [0] from rfl, List.map_cons, List.map_nil]
    norm_num [tickAt, simStep_t, cfgHalfStep]
  exact ⟨by norm_num [cfgHalfStep], by norm_num [cfgHalfStep], ht,
    by rw [ht]; rfl, rfl, by norm_num⟩

/-- C10: `run_simulation` always simulates with the module constants
`dt = DT = 1` and `total_time = TOTAL_TIME = 18000`; its signature has no
step-size or horizon parameter, so for every choice of arguments every
column of the returned series has exactly `18000 + 1 = 18001` rows. -/
theorem run_simulation_row_count (pow23 : ℚ → ℚ)
    (T_set Kp Ti Td P_max volume_l flow_l_per_min shower_start_s
      shower_end_s : ℚ) :
    (run_simulation pow23 T_set Kp Ti Td P_max volume_l flow_l_per_min
        shower_start_s shower_end_s).time.length = 18001 ∧
    (run_simulation pow23 T_set Kp Ti Td P_max volume_l flow_l_per_min
        shower_start_s shower_end_s).temperature.length = 18001 ∧
    (run_simulation pow23 T_set Kp Ti Td P_max volume_l flow_l_per_min
        shower_start_s shower_end_s).power.length = 18001 ∧
    (run_simulation pow23 T_set Kp Ti Td P_max volume_l flow_l_per_min
        shower_start_s shower_end_s).q_out.length = 18001 ∧
    (run_simulation pow23 T_set Kp Ti Td P_max volume_l flow_l_per_min
        shower_start_s shower_end_s).P_term.length = 18001 ∧
    (run_simulation pow23 T_set Kp Ti Td P_max volume_l flow_l_per_min
        shower_start_s shower_end_s).I_term.length = 18001 ∧
    (run_simulation pow23 T_set Kp Ti Td P_max volume_l flow_l_per_min
        shower_start_s shower_end_s).D_term.length = 18001 := by
  simp only [run_simulation, simulate_time_length, simulate_temperature_length,
    simulate_power_length, simulate_q_out_length, simulate_P_term_length,
    simulate_I_term_length, simulate_D_term_length]
  rw [numTicks_default _ rfl rfl]
  norm_num

/-- C1 (amended): the engine performs no configuration validation.  For
every configuration whose `dt` and `C` are nonzero — including invalid ones
with `total_time ≤ 0`, negative `C`, `volume_l ≤ 0` or
`shower_end_s < shower_start_s` — it raises nothing and emits at least the
initial sample; the only failure modes are `ZeroDivisionError`s (`dt = 0`
at `n = int(total_time/dt)`, `C = 0` inside `boiler_step`), not a typed
configuration error. -/
theorem no_config_validation (cfg : SimConfig) (hdt : cfg.dt ≠ 0)
    (hC : cfg.params.C ≠ 0) :
    simulate_boiler_pid_checked cfg = some (simulate_boiler_pid cfg) ∧
    (simulate_boiler_pid cfg).time.head? = some 0 :=
  ⟨checked_complete cfg hdt hC, rfl⟩

/-- C1 witness: the no-validation theorem discharged at the invalid
configuration `cfgNoValidate` (`total_time = -1 ≤ 0`). -/
theorem no_config_validation_witness :
    (cfgNoValidate.dt ≠ 0 ∧ cfgNoValidate.params.C ≠ 0
      ∧ cfgNoValidate.total_time ≤ 0) ∧
    (simulate_boiler_pid_checked cfgNoValidate
        = some (simulate_boiler_pid cfgNoValidate) ∧
      (simulate_boiler_pid cfgNoValidate).time.head? = some 0) :=
  ⟨⟨by norm_num [cfgNoValidate], by norm_num [cfgNoValidate],
      by norm_num [cfgNoValidate]⟩,
    no_config_validation cfgNoValidate (by norm_num [cfgNoValidate])
      (by norm_num [cfgNoValidate])⟩

/-- C1 counterexample: at the invalid configuration `total_time = -1 ≤ 0`
the engine does not fail fast: no error is raised (the checked run
succeeds) and the initial sample is emitted, the returned time column being
`[0]`. -/
theorem invalid_config_runs_anyway :
    cfgNoValidate.total_time ≤ 0 ∧
    simulate_boiler_pid_checked cfgNoValidate
      = some (simulate_boiler_pid cfgNoValidate) ∧
    (simulate_boiler_pid cfgNoValidate).time = [0] := by
  refine ⟨by norm_num [cfgNoValidate],
    checked_complete _ (by norm_num [cfgNoValidate])
      (by norm_num [cfgNoValidate]), ?_⟩
  have hn : numTicks cfgNoValidate = 0 := by
    have h1 : cfgNoValidate.total_time / cfgNoValidate.dt = -1 := by
      norm_num [cfgNoValidate]
    have h2 : ⌈(-1 : ℚ)⌉ = -1 := by
      rw [show ((-1 : ℚ)) = ((-1 : ℤ) : ℚ) by norm_num]
      exact Int.ceil_intCast (-1)
    rw [numTicks, truncInt, h1, if_neg (by norm_num), h2]
    rfl
  show (0 : ℚ) :: (List.range (numTicks cfgNoValidate)).map
      (fun k => (tickAt cfgNoValidate k).t) = [0]
  rw [hn]
  rfl

/-- C2 (amended): at every tick the controller computes `e = T_set − T`,
`P_term = Kp·e`, `I_term = Ki·integral` with `Ki = Kp/Ti if Ti > 0 else 0`
and the integral accumulated before this tick's update,
`D_term = Kd·(e − previous_error)/dt` with `Kd = Kp·Td if Td > 0 else 0`,
clamps `P_in = clamp(P_term + I_term + D_term, 0, P_max)`, and then stores
`previous_error = e`; `Ti = 0` skips the integral term and all windup
logic.  However, because the gains are dependent, `Kp = 0` forces
`Ki = Kd = 0`, so the I and D terms are identically zero — `Kp = 0` does
NOT allow enabled I/D terms to act. -/
theorem pid_tick_equations (cfg : SimConfig) (s : CtrlState) (k : ℕ)
    (hKp : 0 ≤ cfg.Kp) : pidTickFormulas cfg s k := by
  refine ⟨rfl, rfl, ?_, ?_, rfl, rfl, ?_, ?_⟩
  · by_cases hTi : cfg.Ti > 0
    · rw [if_pos hTi]
      have hKiv : Ki cfg = cfg.Kp / cfg.Ti := by rw [Ki, if_pos hTi]
      rw [simStep_I_term, hKiv]
      split_ifs with h
      · rfl
      · have h0 : cfg.Kp / cfg.Ti = 0 :=
          le_antisymm (not_lt.mp h) (div_nonneg hKp hTi.le)
        rw [h0, zero_mul]
    · rw [if_neg hTi, zero_mul, simStep_I_term]
      have h0 : ¬ Ki cfg > 0 := by
        rw [Ki, if_neg hTi]
        exact lt_irrefl 0
      rw [if_neg h0]
  · by_cases hTd : cfg.Td > 0
    · rw [if_pos hTd]
      have hKdv : Kd cfg = cfg.Kp * cfg.Td := by rw [Kd, if_pos hTd]
      rw [simStep_D_term, hKdv]
      split_ifs with h
      · rfl
      · have h0 : cfg.Kp * cfg.Td = 0 :=
          le_antisymm (not_lt.mp h) (mul_nonneg hKp hTd.le)
        rw [h0, zero_mul, zero_div]
    · rw [if_neg hTd, zero_mul, zero_div, simStep_D_term]
      have h0 : ¬ Kd cfg > 0 := by
        rw [Kd, if_neg hTd]
        exact lt_irrefl 0
      rw [if_neg h0]
  · intro h
    have hKi0 : Ki cfg = 0 := by
      rw [Ki, h]
      simp
    have h1 : ¬ Ki cfg > 0 := by
      rw [hKi0]
      exact lt_irrefl 0
    refine ⟨by rw [simStep_I_term, if_neg h1], ?_⟩
    have h2 : ¬ (Ki cfg > 0 ∧ (simStep cfg s k).e < 5) := fun hc => h1 hc.1
    rw [simStep_integ_next, if_neg h2, if_neg h1]
  · intro h
    have h1 : ¬ Ki cfg > 0 := by
      rw [Ki_of_Kp_zero cfg h]
      exact lt_irrefl 0
    have h2 : ¬ Kd cfg > 0 := by
      rw [Kd_of_Kp_zero cfg h]
      exact lt_irrefl 0
    exact ⟨by rw [simStep_I_term, if_neg h1], by rw [simStep_D_term, if_neg h2]⟩

/-- C2 witness: the per-tick equations discharged at the concrete
configuration `cfgKpZero` and its initial state. -/
theorem pid_tick_equations_witness :
    (0 : ℚ) ≤ cfgKpZero.Kp ∧ pidTickFormulas cfgKpZero (initState cfgKpZero) 0 :=
  ⟨by norm_num [cfgKpZero],
    pid_tick_equations cfgKpZero (initState cfgKpZero) 0
      (by norm_num [cfgKpZero])⟩

/-- C2 counterexample: with `Kp = 0`, `Ti = 2 > 0`, `Td = 3 > 0`, the
dependent gains `Ki = Kp/Ti` and `Kd = Kp·Td` vanish, so the enabled I and
D terms never act: every logged `I_term` and `D_term` is `0` even though
the error is nonzero and changes between ticks (at tick 1 the error is `20`
while the stored previous error is `10`). -/
theorem kp_zero_disables_ID :
    cfgKpZero.Kp = 0 ∧ cfgKpZero.Ti > 0 ∧ cfgKpZero.Td > 0 ∧
    (simulate_boiler_pid cfgKpZero).I_term = [0, 0, 0, 0] ∧
    (simulate_boiler_pid cfgKpZero).D_term = [0, 0, 0, 0] ∧
    (tickAt cfgKpZero 1).e = 20 ∧ (stateAt cfgKpZero 1).e_prev = 10 := by
  have hn : numTicks cfgKpZero = 3 := by
    norm_num [numTicks, truncInt, cfgKpZero]
    decide
  refine ⟨rfl, by norm_num [cfgKpZero], by norm_num [cfgKpZero], ?_, ?_, ?_, ?_⟩
  · simp only [simulate_boiler_pid, hn,
      show List.range 3 = [0, 1, 2] from rfl, List.map_cons, List.map_nil]
    norm_num [tickAt, stateAt, initState, nextState, simStep, boiler_step,
      Ki, Kd, integ_max, P_loss_estimated, cfgKpZero, zeroProfile]
  · simp only [simulate_boiler_pid, hn,
      show List.range 3 = [0, 1, 2] from rfl, List.map_cons, List.map_nil]
    norm_num [tickAt, stateAt, initState, nextState, simStep, boiler_step,
      Ki, Kd, integ_max, P_loss_estimated, cfgKpZero, zeroProfile]
  · norm_num [tickAt, stateAt, initState, nextState, simStep, boiler_step,
      Ki, Kd, integ_max, P_loss_estimated, cfgKpZero, zeroProfile]
  · norm_num [tickAt, stateAt, initState, nextState, simStep, boiler_step,
      Ki, Kd, integ_max, P_loss_estimated, cfgKpZero, zeroProfile]

/-- C3 (amended): for every run with `Kp > 0` and `Ti > 0` (so that
`Ki = Kp/Ti > 0` — `Ti > 0` alone does NOT give `Ki > 0`), at every tick
integral accumulation is skipped exactly on directional saturation, and
whenever `e < 5` the stored integral is clamped into `[−L, L]` with
`L = integral_max·(1 + max(0, e/5))` and
`integral_max = k_loss·(T_set − T_out)/Ki`, so its magnitude is bounded by
`|L|` at such ticks; no bound is enforced when `e ≥ 5`. -/
theorem anti_windup_policy (cfg : SimConfig) (s : CtrlState) (k : ℕ)
    (hKp : 0 < cfg.Kp) (hTi : 0 < cfg.Ti) : antiWindupSpec cfg s k := by
  have hKi : Ki cfg > 0 := by
    rw [Ki, if_pos hTi]
    exact div_pos hKp hTi
  have hL : integ_max cfg
      = cfg.params.k_loss * (cfg.T_set - cfg.params.T_out) / Ki cfg := by
    rw [integ_max, if_pos hKi, P_loss_estimated]
  refine ⟨?_, ?_, ?_⟩
  · intro h5
    rw [simStep_integ_next, if_neg (fun hc => h5 hc.2), if_pos hKi, ite_not]
  · intro h5
    rw [simStep_integ_next, if_pos ⟨hKi, h5⟩, if_pos hKi, ite_not, hL]
  · intro h5
    rw [simStep_integ_next, if_pos ⟨hKi, h5⟩, hL]
    exact abs_clamp_le _ _

/-- C3 witness: the anti-windup policy discharged at the concrete PI
configuration `cfgPid` and its initial state. -/
theorem anti_windup_policy_witness :
    (0 < cfgPid.Kp ∧ 0 < cfgPid.Ti)
      ∧ antiWindupSpec cfgPid (initState cfgPid) 0 :=
  ⟨⟨by norm_num [cfgPid], by norm_num [cfgPid]⟩,
    anti_windup_policy cfgPid (initState cfgPid) 0 (by norm_num [cfgPid])
      (by norm_num [cfgPid])⟩

/-- C3 counterexample: in the run `cfgTiNoKp` with `Ti = 100 > 0` but
`Kp = 0` (so `Ki = 0`), tick 0 is not saturated in either direction and
has error `45 > 0`, yet the integral is NOT accumulated: it stays `0`
instead of becoming `integ + e·dt = 45`.  Accumulation is thus not "skipped
exactly when saturated" on runs with `Ti > 0`, and `Ti > 0` does not imply
`Ki > 0`. -/
theorem ti_pos_kp_zero_skips_accumulation :
    cfgTiNoKp.Ti > 0 ∧
    ¬ (((tickAt cfgTiNoKp 0).P_in ≥ cfgTiNoKp.P_max
          ∧ (tickAt cfgTiNoKp 0).e > 0)
        ∨ ((tickAt cfgTiNoKp 0).P_in ≤ 0 ∧ (tickAt cfgTiNoKp 0).e < 0)) ∧
    (stateAt cfgTiNoKp 0).integ + (tickAt cfgTiNoKp 0).e * cfgTiNoKp.dt = 45 ∧
    (stateAt cfgTiNoKp 1).integ = 0 ∧
    (0 : ℚ) ≠ 45 := by
  refine ⟨by norm_num [cfgTiNoKp], ?_, ?_, ?_, by norm_num⟩
  · norm_num [tickAt, stateAt, initState, nextState, simStep, boiler_step,
      Ki, Kd, integ_max, P_loss_estimated, cfgTiNoKp, zeroProfile]
  · norm_num [tickAt, stateAt, initState, nextState, simStep, boiler_step,
      Ki, Kd, integ_max, P_loss_estimated, cfgTiNoKp, zeroProfile]
  · norm_num [tickAt, stateAt, initState, nextState, simStep, boiler_step,
      Ki, Kd, integ_max, P_loss_estimated, cfgTiNoKp, zeroProfile]

/-- C7 (amended): the in-loop divisions are guarded — `Kp/Ti` by `Ti > 0`,
`P_loss_estimated/Ki` by `Ki > 0`, and the derivative division by `dt` by
`Kd > 0`, the I and D terms short-circuiting to zero when their gate is
closed — but the engine is not fault-free: the unguarded divisions are
`total_time/dt` (line 65; faults exactly when `dt = 0`) and `boiler_step`'s
`/C` (faults when `C = 0` and at least one tick runs). -/
theorem division_guards (cfg : SimConfig) :
    ((simulate_boiler_pid_checked cfg).isSome
        ↔ (cfg.dt ≠ 0 ∧ (cfg.params.C ≠ 0 ∨ numTicks cfg = 0))) ∧
    (cfg.Ti ≤ 0 → Ki cfg = 0) ∧
    (cfg.Td ≤ 0 → Kd cfg = 0) ∧
    (∀ s k, Ki cfg ≤ 0 → (simStep cfg s k).I_term = 0) ∧
    (∀ s k, Kd cfg ≤ 0 → (simStep cfg s k).D_term = 0) := by
  refine ⟨?_, ?_, ?_, ?_, ?_⟩
  · by_cases hdt : cfg.dt = 0
    · unfold simulate_boiler_pid_checked
      rw [div?, if_pos hdt]
      simp [hdt]
    · have hred : simulate_boiler_pid_checked cfg
          = (runChecked cfg (numTicks cfg)).bind
              fun _ => some (simulate_boiler_pid cfg) := by
        unfold simulate_boiler_pid_checked
        rw [show div? cfg.total_time cfg.dt = some (cfg.total_time / cfg.dt)
            from by rw [div?, if_neg hdt], ti_div_eq, ki_div_eq]
        rfl
      have hiso : ((runChecked cfg (numTicks cfg)).bind
            fun _ => some (simulate_boiler_pid cfg)).isSome
          = (runChecked cfg (numTicks cfg)).isSome := by
        cases runChecked cfg (numTicks cfg) <;> rfl
      rw [hred, hiso, runChecked_isSome_iff cfg hdt]
      constructor
      · rintro (h | h)
        · exact ⟨hdt, Or.inr h⟩
        · exact ⟨hdt, Or.inl h⟩
      · rintro ⟨-, h | h⟩
        · exact Or.inr h
        · exact Or.inl h
  · intro h
    rw [Ki, if_neg (not_lt.mpr h)]
  · intro h
    rw [Kd, if_neg (not_lt.mpr h)]
  · intro s k h
    rw [simStep_I_term, if_neg (not_lt.mpr h)]
  · intro s k h
    rw [simStep_D_term, if_neg (not_lt.mpr h)]

/-- C7 witness: the division-guard characterisation instantiated at the
concrete configuration `cfgPid`. -/
theorem division_guards_witness :
    ((simulate_boiler_pid_checked cfgPid).isSome
        ↔ (cfgPid.dt ≠ 0 ∧ (cfgPid.params.C ≠ 0 ∨ numTicks cfgPid = 0))) ∧
    (cfgPid.Ti ≤ 0 → Ki cfgPid = 0) ∧
    (cfgPid.Td ≤ 0 → Kd cfgPid = 0) ∧
    (∀ s k, Ki cfgPid ≤ 0 → (simStep cfgPid s k).I_term = 0) ∧
    (∀ s k, Kd cfgPid ≤ 0 → (simStep cfgPid s k).D_term = 0) :=
  division_guards cfgPid

/-- C7 counterexample: the division `n = int(total_time/dt)` on line 65 is
not guarded: with `dt = 0` it raises a `ZeroDivisionError` (the checked run
returns `none`) instead of short-circuiting anything to zero. -/
theorem dt_zero_division_fault :
    cfgDtZero.dt = 0 ∧ simulate_boiler_pid_checked cfgDtZero = none := by
  refine ⟨rfl, ?_⟩
  unfold simulate_boiler_pid_checked
  rw [div?, if_pos (show cfgDtZero.dt = 0 from rfl)]
  rfl

/-! ## Helper lemma: the unforced Euler step relative to the equilibrium -/

lemma unforced_step_sub (T q : ℚ) (p : BoilerParams) (dt : ℚ)
    (hab : p.k_loss + p.k_draw * q ≠ 0) :
    boiler_step T 0 q p dt - T_eq p q
      = (1 - dt * (p.k_loss + p.k_draw * q) / p.C) * (T - T_eq p q) := by
  have h : (p.k_loss + p.k_draw * q) * T_eq p q
      = p.k_loss * p.T_out + p.k_draw * q * p.T_cold := by
    rw [T_eq]
    field_simp
  show T + dt * ((0 - p.k_loss * (T - p.T_out)
      - p.k_draw * q * (T - p.T_cold)) / p.C) - T_eq p q = _
  rw [div_eq_mul_inv, div_eq_mul_inv]
  linear_combination (-(dt) * p.C⁻¹) * h

/-- C8 (amended): with `Kp = Ti = Td = 0` the emitted power column is
identically zero and the temperature follows the unforced thermal model;
each unforced Euler step moves the temperature monotonically toward the
ambient/draw-weighted equilibrium `T_eq` without crossing it PROVIDED the
step-size stability condition `0 ≤ dt·(k_loss + k_draw·q)/C ≤ 1` holds —
without it the explicit Euler trajectory can oscillate, as the
counterexample shows. -/
theorem zero_gains_behavior (cfg : SimConfig) (hKp : cfg.Kp = 0)
    (hTi : cfg.Ti = 0) (hTd : cfg.Td = 0) : zeroGainsRelax cfg := by
  refine ⟨?_, ?_, ?_⟩
  · intro p hp
    simp only [simulate_boiler_pid, List.mem_cons, List.mem_map,
      List.mem_range] at hp
    rcases hp with rfl | ⟨k, -, rfl⟩
    · rfl
    · rw [tickAt]
      exact zero_gains_P_in cfg _ k hKp
  · intro k
    show (simStep cfg (stateAt cfg k) k).T_next = _
    rw [simStep_T_next, zero_gains_P_in cfg _ k hKp]
    rfl
  · intro T q hab h0 h1
    have hid := unforced_step_sub T q cfg.params cfg.dt (ne_of_gt hab)
    constructor
    · intro hTe
      have hT : 0 ≤ T - T_eq cfg.params q := sub_nonneg.mpr hTe
      have k1 : 0 ≤ (1 - cfg.dt * (cfg.params.k_loss + cfg.params.k_draw * q)
          / cfg.params.C) * (T - T_eq cfg.params q) :=
        mul_nonneg (by linarith) hT
      have k2 : 0 ≤ (cfg.dt * (cfg.params.k_loss + cfg.params.k_draw * q)
          / cfg.params.C) * (T - T_eq cfg.params q) := mul_nonneg h0 hT
      have k3 : (1 - cfg.dt * (cfg.params.k_loss + cfg.params.k_draw * q)
            / cfg.params.C) * (T - T_eq cfg.params q)
          = (T - T_eq cfg.params q)
            - (cfg.dt * (cfg.params.k_loss + cfg.params.k_draw * q)
              / cfg.params.C) * (T - T_eq cfg.params q) := by ring
      constructor
      · linarith [hid, k1]
      · linarith [hid, k2, k3]
    · intro hTe
      have hT : T - T_eq cfg.params q ≤ 0 := sub_nonpos.mpr hTe
      have k1 : (1 - cfg.dt * (cfg.params.k_loss + cfg.params.k_draw * q)
          / cfg.params.C) * (T - T_eq cfg.params q) ≤ 0 :=
        mul_nonpos_of_nonneg_of_nonpos (by linarith) hT
      have k2 : (cfg.dt * (cfg.params.k_loss + cfg.params.k_draw * q)
          / cfg.params.C) * (T - T_eq cfg.params q) ≤ 0 :=
        mul_nonpos_of_nonneg_of_nonpos h0 hT
      have k3 : (1 - cfg.dt * (cfg.params.k_loss + cfg.params.k_draw * q)
            / cfg.params.C) * (T - T_eq cfg.params q)
          = (T - T_eq cfg.params q)
            - (cfg.dt * (cfg.params.k_loss + cfg.params.k_draw * q)
              / cfg.params.C) * (T - T_eq cfg.params q) := by ring
      constructor
      · linarith [hid, k2, k3]
      · linarith [hid, k1]

/-- C8 witness: the zero-gain behavior discharged at the concrete zero-gain
configuration `cfgStiff`. -/
theorem zero_gains_behavior_witness :
    (cfgStiff.Kp = 0 ∧ cfgStiff.Ti = 0 ∧ cfgStiff.Td = 0)
      ∧ zeroGainsRelax cfgStiff :=
  ⟨⟨rfl, rfl, rfl⟩, zero_gains_behavior cfgStiff rfl rfl rfl⟩

/-- C8 counterexample: the valid zero-gain configuration `cfgStiff`
(`C = 1`, `k_loss = 3`, `dt = 1`, no draw) yields the temperature column
`[10, 46, -26]`: the equilibrium is `22`, the trajectory jumps from below
it (`10`) to above it (`46`) and then far below (`-26`), with the distance
from equilibrium growing (`46 − 22 = 24 > 22 − 10 = 12`) — it does not
monotonically relax and it oscillates. -/
theorem euler_oscillation :
    cfgStiff.Kp = 0 ∧ cfgStiff.Ti = 0 ∧ cfgStiff.Td = 0 ∧
    0 < cfgStiff.dt ∧ 0 < cfgStiff.total_time ∧ 0 ≤ cfgStiff.P_max ∧
    (simulate_boiler_pid cfgStiff).temperature = [10, 46, -26] ∧
    T_eq cfgStiff.params 0 = 22 ∧
    ((10 : ℚ) < 22 ∧ (22 : ℚ) < 46 ∧ (-26 : ℚ) < 22) ∧
    (22 : ℚ) - 10 < 46 - 22 := by
  have hn : numTicks cfgStiff = 2 := by
    norm_num [numTicks, truncInt, cfgStiff]
    decide
  refine ⟨rfl, rfl, rfl, by norm_num [cfgStiff], by norm_num [cfgStiff],
    by norm_num [cfgStiff], ?_, ?_, by norm_num, by norm_num⟩
  · simp only [simulate_boiler_pid, hn,
      show List.range 2 = [0, 1] from rfl, List.map_cons, List.map_nil]
    norm_num [tickAt, stateAt, initState, nextState, simStep, boiler_step,
      Ki, Kd, integ_max, P_loss_estimated, cfgStiff, zeroProfile]
  · norm_num [T_eq, cfgStiff]

end BoilerSim
